import Mathlib

/-!
Verification of the NYC taxi fare prediction pipeline.

Shallow embedding of the repository's core pipeline:
* `src/backend/app/utils.py` — geometry, coordinate validation, confidence estimator.
* `src/backend/app/prediction.py` — the live `TaxiFarePredictor` (feature
  preparation, schema alignment, borough classification, orchestration).
* `src/backend/models/enhanced_taxi_fare_predictor.py` — the legacy
  `EnhancedTaxiFarePredictor` (input validation, feature engineering,
  business-rule clamp).

Coordinates enter the pipeline as exact rationals; every derived numeric
value is a real number (the source computes with IEEE floats; we model the
ideal real-valued computation).  Python's `round(x, n)` (banker's rounding)
is modelled by `pyRound`/`roundTo`.
-/

/-- A calendar timestamp as the pipeline consumes it: the five fields read
from a Python `datetime` (`.hour`, `.day`, `.month`, `.weekday()`, `.year`). -/
structure DateTime where
  hour : ℕ
  day : ℕ
  month : ℕ
  weekday : ℕ
  year : ℕ

/-- Python `round(x)` on a real argument: round half to even. -/
noncomputable def pyRound (x : ℝ) : ℤ :=
  open Classical in
  if x - ⌊x⌋ < 1/2 then ⌊x⌋
  else if x - ⌊x⌋ > 1/2 then ⌊x⌋ + 1
  else if ⌊x⌋ % 2 = 0 then ⌊x⌋ else ⌊x⌋ + 1

/-- Python `round(x, p)` for `p` decimal places. -/
noncomputable def roundTo (p : ℕ) (x : ℝ) : ℝ :=
  (pyRound (x * 10 ^ p) : ℝ) / 10 ^ p

/-- Degrees to radians, `math.radians` / `np.radians`. -/
noncomputable def radians (x : ℚ) : ℝ :=
  (x : ℝ) * Real.pi / 180

/-- The haversine quantity `a` shared verbatim by both haversine
implementations in the source (`utils.py` line 41 and
`enhanced_taxi_fare_predictor.py` line 42): arguments already in radians. -/
noncomputable def haversine_core (lat1 lon1 lat2 lon2 : ℝ) : ℝ :=
  Real.sin ((lat2 - lat1) / 2) ^ 2 +
    Real.cos lat1 * Real.cos lat2 * Real.sin ((lon2 - lon1) / 2) ^ 2

/-- `utils.calculate_haversine_distance` (Earth radius 3956 miles). -/
noncomputable def calculate_haversine_distance
    (pickup_lat pickup_lon dropoff_lat dropoff_lon : ℚ) : ℝ :=
  2 * Real.arcsin (Real.sqrt (haversine_core (radians pickup_lat) (radians pickup_lon)
    (radians dropoff_lat) (radians dropoff_lon))) * 3956

/-- `EnhancedTaxiFarePredictor.haversine_distance` (Earth radius 3959 miles). -/
noncomputable def enh_haversine_distance (lat1 lng1 lat2 lng2 : ℚ) : ℝ :=
  2 * 3959 * Real.arcsin (Real.sqrt
    (haversine_core (radians lat1) (radians lng1) (radians lat2) (radians lng2)))

/-- `utils.validate_nyc_coordinates`. -/
def validate_nyc_coordinates (lat lon : ℚ) : Prop :=
  (40.63 ≤ lat ∧ lat ≤ 40.85) ∧ (-74.05 ≤ lon ∧ lon ≤ -73.75)

instance (lat lon : ℚ) : Decidable (validate_nyc_coordinates lat lon) := by
  unfold validate_nyc_coordinates; infer_instance

/-- `TaxiFarePredictor._get_borough_id` (prediction.py lines 188-205):
first matching rectangle in the fixed order Manhattan, Brooklyn, Queens,
Bronx; everything else is 4 (Staten Island). -/
def get_borough_id (lat lon : ℚ) : ℕ :=
  if -74.02 ≤ lon ∧ lon ≤ -73.93 ∧ 40.70 ≤ lat ∧ lat ≤ 40.80 then 0
  else if -74.05 ≤ lon ∧ lon ≤ -73.85 ∧ 40.63 ≤ lat ∧ lat ≤ 40.72 then 1
  else if -73.96 ≤ lon ∧ lon ≤ -73.75 ∧ 40.72 ≤ lat ∧ lat ≤ 40.80 then 2
  else if -73.93 ≤ lon ∧ lon ≤ -73.80 ∧ 40.80 ≤ lat ∧ lat ≤ 40.88 then 3
  else 4

/-- `TaxiFarePredictor._get_borough_name`. -/
def get_borough_name (lat lon : ℚ) : String :=
  match get_borough_id lat lon with
  | 0 => "Manhattan"
  | 1 => "Brooklyn"
  | 2 => "Queens"
  | 3 => "Bronx"
  | _ => "Staten Island"

/-- Rush-hour flag of the live pipeline,
`int((7 <= hour <= 9) or (17 <= hour <= 19))` (prediction.py line 122). -/
def app_is_rush_hour (hour : ℕ) : ℕ :=
  if (7 ≤ hour ∧ hour ≤ 9) ∨ (17 ≤ hour ∧ hour ≤ 19) then 1 else 0

/-- Night flag of the live pipeline,
`int(hour >= 22 or hour <= 5)` (prediction.py line 123). -/
def app_is_night (hour : ℕ) : ℕ :=
  if 22 ≤ hour ∨ hour ≤ 5 then 1 else 0

/-- Rush-hour flag of the legacy variant,
`int(pickup_datetime.hour in [7, 8, 9, 17, 18, 19])`
(enhanced_taxi_fare_predictor.py line 125). -/
def enh_is_rush_hour (hour : ℕ) : ℕ :=
  if hour ∈ [7, 8, 9, 17, 18, 19] then 1 else 0

/-- Night flag of the legacy variant,
`int(pickup_datetime.hour >= 22 or pickup_datetime.hour <= 6)`
(enhanced_taxi_fare_predictor.py line 126). -/
def enh_is_night (hour : ℕ) : ℕ :=
  if 22 ≤ hour ∨ hour ≤ 6 then 1 else 0

/-- Mean as `statistics.mean`. -/
noncomputable def listMean (xs : List ℝ) : ℝ :=
  xs.sum / xs.length

/-- Sample variance with Bessel's correction, as used by `statistics.stdev`. -/
noncomputable def sampleVariance (xs : List ℝ) : ℝ :=
  ((xs.map fun x => (x - listMean xs) ^ 2).sum) / ((xs.length : ℝ) - 1)

/-- `statistics.stdev`. -/
noncomputable def sampleStdev (xs : List ℝ) : ℝ :=
  Real.sqrt (sampleVariance xs)

/-- The `fare_range` dictionary returned by the confidence estimator. -/
structure FareRange where
  min : ℝ
  max : ℝ

/-- `utils.calculate_fare_confidence` (utils.py lines 74-120). -/
noncomputable def calculate_fare_confidence
    (prediction : ℝ) (model_predictions : List ℝ) (trip_distance : ℝ) :
    ℝ × FareRange :=
  open Classical in
  if model_predictions.length < 2 then
    let confidence : ℝ := 0.7
    let margin := prediction * 0.2
    (confidence, ⟨max 2.50 (prediction - margin), prediction + margin⟩)
  else
    let std_dev := sampleStdev model_predictions
    let mean_pred := listMean model_predictions
    let relative_std := if mean_pred > 0 then std_dev / mean_pred else 1.0
    let confidence := max 0.1 (min 0.95 (1.0 - relative_std * 2))
    let margin := std_dev * 1.5
    let lo := max 2.50 (prediction - margin)
    let hi := prediction + margin
    (roundTo 3 confidence, ⟨roundTo 2 lo, roundTo 2 hi⟩)

/-- The feature dictionary built by `TaxiFarePredictor._prepare_features`
(prediction.py lines 139-161), field per dict entry in insertion order.
All values become float64 before scoring, hence every field is real. -/
structure TripFeatures where
  pickup_longitude : ℝ
  pickup_latitude : ℝ
  dropoff_longitude : ℝ
  dropoff_latitude : ℝ
  passenger_count : ℝ
  hour : ℝ
  day : ℝ
  month : ℝ
  weekday : ℝ
  year : ℝ
  distance : ℝ
  jfk_pickup_dist : ℝ
  ewr_pickup_dist : ℝ
  lga_pickup_dist : ℝ
  is_weekend : ℝ
  is_rush_hour : ℝ
  is_night : ℝ
  manhattan_pickup_dist : ℝ
  is_manhattan_pickup : ℝ
  is_manhattan_dropoff : ℝ
  log_distance : ℝ

/-- `TaxiFarePredictor._prepare_features`, the feature-derivation part
(prediction.py lines 96-161).  The source reads `datetime.now()`; the ambient
wall clock is the explicit `clock` argument here. -/
noncomputable def app_feature_record (clock : DateTime)
    (pickup_lon pickup_lat dropoff_lon dropoff_lat : ℚ)
    (passenger_count : ℕ) : TripFeatures :=
  let distance := calculate_haversine_distance pickup_lat pickup_lon dropoff_lat dropoff_lon
  let jfk_pickup_dist := calculate_haversine_distance pickup_lat pickup_lon 40.6413 (-73.7781)
  let ewr_pickup_dist := calculate_haversine_distance pickup_lat pickup_lon 40.6895 (-74.1745)
  let lga_pickup_dist := calculate_haversine_distance pickup_lat pickup_lon 40.7769 (-73.8740)
  let manhattan_pickup_dist := calculate_haversine_distance pickup_lat pickup_lon 40.7589 (-73.9851)
  { pickup_longitude := (pickup_lon : ℝ)
    pickup_latitude := (pickup_lat : ℝ)
    dropoff_longitude := (dropoff_lon : ℝ)
    dropoff_latitude := (dropoff_lat : ℝ)
    passenger_count := (passenger_count : ℝ)
    hour := (clock.hour : ℝ)
    day := (clock.day : ℝ)
    month := (clock.month : ℝ)
    weekday := (clock.weekday : ℝ)
    year := (clock.year : ℝ)
    distance := distance
    jfk_pickup_dist := jfk_pickup_dist
    ewr_pickup_dist := ewr_pickup_dist
    lga_pickup_dist := lga_pickup_dist
    is_weekend := if 5 ≤ clock.weekday then 1 else 0
    is_rush_hour := (app_is_rush_hour clock.hour : ℝ)
    is_night := (app_is_night clock.hour : ℝ)
    manhattan_pickup_dist := manhattan_pickup_dist
    is_manhattan_pickup :=
      if (40.7000 ≤ pickup_lat ∧ pickup_lat ≤ 40.8000) ∧
         (-74.0200 ≤ pickup_lon ∧ pickup_lon ≤ -73.9300) then 1 else 0
    is_manhattan_dropoff :=
      if (40.7000 ≤ dropoff_lat ∧ dropoff_lat ≤ 40.8000) ∧
         (-74.0200 ≤ dropoff_lon ∧ dropoff_lon ≤ -73.9300) then 1 else 0
    log_distance := Real.log (max distance 0.01) }

/-- The `features` dict of `_prepare_features` as the ordered association
list Python iterates over. -/
def appFeatureList (f : TripFeatures) : List (String × ℝ) :=
  [("pickup_longitude", f.pickup_longitude),
   ("pickup_latitude", f.pickup_latitude),
   ("dropoff_longitude", f.dropoff_longitude),
   ("dropoff_latitude", f.dropoff_latitude),
   ("passenger_count", f.passenger_count),
   ("hour", f.hour),
   ("day", f.day),
   ("month", f.month),
   ("weekday", f.weekday),
   ("year", f.year),
   ("distance", f.distance),
   ("jfk_pickup_dist", f.jfk_pickup_dist),
   ("ewr_pickup_dist", f.ewr_pickup_dist),
   ("lga_pickup_dist", f.lga_pickup_dist),
   ("is_weekend", f.is_weekend),
   ("is_rush_hour", f.is_rush_hour),
   ("is_night", f.is_night),
   ("manhattan_pickup_dist", f.manhattan_pickup_dist),
   ("is_manhattan_pickup", f.is_manhattan_pickup),
   ("is_manhattan_dropoff", f.is_manhattan_dropoff),
   ("log_distance", f.log_distance)]

/-- Schema alignment of the live pipeline (prediction.py lines 163-170):
`ordered_features = {feat: features[feat] for feat in expected_features if feat in features}`,
falling back to the full record when the expected schema is empty.
A schema name with no matching record entry is skipped without error. -/
def alignApp (features : List (String × ℝ)) (schema : List String) :
    List (String × ℝ) :=
  if schema.isEmpty then features
  else schema.filterMap fun n => (features.lookup n).map fun v => (n, v)

/-- The feature dictionary built by `EnhancedTaxiFarePredictor.predict_fare`
(enhanced_taxi_fare_predictor.py lines 108-143): twenty base entries plus
log-transformed entries that exist only when the model schema asks for them. -/
structure EnhFeatures where
  pickup_longitude : ℝ
  pickup_latitude : ℝ
  dropoff_longitude : ℝ
  dropoff_latitude : ℝ
  passenger_count : ℝ
  hour : ℝ
  day : ℝ
  month : ℝ
  weekday : ℝ
  year : ℝ
  distance : ℝ
  jfk_pickup_dist : ℝ
  ewr_pickup_dist : ℝ
  lga_pickup_dist : ℝ
  is_weekend : ℝ
  is_rush_hour : ℝ
  is_night : ℝ
  manhattan_pickup_dist : ℝ
  is_manhattan_pickup : ℝ
  is_manhattan_dropoff : ℝ
  log_distance : Option ℝ
  log_jfk_pickup_dist : Option ℝ
  log_ewr_pickup_dist : Option ℝ
  log_lga_pickup_dist : Option ℝ

/-- Feature derivation of `EnhancedTaxiFarePredictor.predict_fare`
(lines 90-143).  `np.log1p x = log (1 + x)`. -/
noncomputable def enh_build_features (schema : List String)
    (pickup_lng pickup_lat dropoff_lng dropoff_lat : ℚ)
    (dt : DateTime) (passenger_count : ℕ) : EnhFeatures :=
  let distance := enh_haversine_distance pickup_lat pickup_lng dropoff_lat dropoff_lng
  let jfk_dist := enh_haversine_distance pickup_lat pickup_lng 40.6413 (-73.7781)
  let ewr_dist := enh_haversine_distance pickup_lat pickup_lng 40.6895 (-74.1745)
  let lga_dist := enh_haversine_distance pickup_lat pickup_lng 40.7769 (-73.8740)
  { pickup_longitude := (pickup_lng : ℝ)
    pickup_latitude := (pickup_lat : ℝ)
    dropoff_longitude := (dropoff_lng : ℝ)
    dropoff_latitude := (dropoff_lat : ℝ)
    passenger_count := (passenger_count : ℝ)
    hour := (dt.hour : ℝ)
    day := (dt.day : ℝ)
    month := (dt.month : ℝ)
    weekday := (dt.weekday : ℝ)
    year := (dt.year : ℝ)
    distance := distance
    jfk_pickup_dist := jfk_dist
    ewr_pickup_dist := ewr_dist
    lga_pickup_dist := lga_dist
    is_weekend := if 5 ≤ dt.weekday then 1 else 0
    is_rush_hour := (enh_is_rush_hour dt.hour : ℝ)
    is_night := (enh_is_night dt.hour : ℝ)
    manhattan_pickup_dist := enh_haversine_distance pickup_lat pickup_lng 40.7589 (-73.9851)
    is_manhattan_pickup :=
      if (40.7 ≤ pickup_lat ∧ pickup_lat ≤ 40.8) ∧
         (-74.02 ≤ pickup_lng ∧ pickup_lng ≤ -73.93) then 1 else 0
    is_manhattan_dropoff :=
      if (40.7 ≤ dropoff_lat ∧ dropoff_lat ≤ 40.8) ∧
         (-74.02 ≤ dropoff_lng ∧ dropoff_lng ≤ -73.93) then 1 else 0
    log_distance :=
      if schema.contains "log_distance" then some (Real.log (1 + distance)) else none
    log_jfk_pickup_dist :=
      if schema.contains "log_jfk_pickup_dist" then some (Real.log (1 + jfk_dist)) else none
    log_ewr_pickup_dist :=
      if schema.contains "log_ewr_pickup_dist" then some (Real.log (1 + ewr_dist)) else none
    log_lga_pickup_dist :=
      if schema.contains "log_lga_pickup_dist" then some (Real.log (1 + lga_dist)) else none }

/-- The `features` dict of the enhanced predictor as an ordered association
list; the log entries are present exactly when computed. -/
def enhFeatureList (f : EnhFeatures) : List (String × ℝ) :=
  [("pickup_longitude", f.pickup_longitude),
   ("pickup_latitude", f.pickup_latitude),
   ("dropoff_longitude", f.dropoff_longitude),
   ("dropoff_latitude", f.dropoff_latitude),
   ("passenger_count", f.passenger_count),
   ("hour", f.hour),
   ("day", f.day),
   ("month", f.month),
   ("weekday", f.weekday),
   ("year", f.year),
   ("distance", f.distance),
   ("jfk_pickup_dist", f.jfk_pickup_dist),
   ("ewr_pickup_dist", f.ewr_pickup_dist),
   ("lga_pickup_dist", f.lga_pickup_dist),
   ("is_weekend", f.is_weekend),
   ("is_rush_hour", f.is_rush_hour),
   ("is_night", f.is_night),
   ("manhattan_pickup_dist", f.manhattan_pickup_dist),
   ("is_manhattan_pickup", f.is_manhattan_pickup),
   ("is_manhattan_dropoff", f.is_manhattan_dropoff)]
  ++ (match f.log_distance with | some v => [("log_distance", v)] | none => [])
  ++ (match f.log_jfk_pickup_dist with | some v => [("log_jfk_pickup_dist", v)] | none => [])
  ++ (match f.log_ewr_pickup_dist with | some v => [("log_ewr_pickup_dist", v)] | none => [])
  ++ (match f.log_lga_pickup_dist with | some v => [("log_lga_pickup_dist", v)] | none => [])

/-- Column selection `pd.DataFrame([available_features])[self.feature_names]`:
one value per requested name, in the requested order; a missing column is a
KeyError, i.e. `none`. -/
def selectColumns (available : List (String × ℝ)) : List String → Option (List ℝ)
  | [] => some []
  | n :: ns =>
    match available.lookup n with
    | none => none
    | some v => (selectColumns available ns).map fun rest => v :: rest

/-- Schema alignment of the enhanced predictor
(enhanced_taxi_fare_predictor.py lines 145-147):
`available_features = {k: v for k, v in features.items() if k in self.feature_names}`
followed by `pd.DataFrame([available_features])[self.feature_names]`. -/
def alignEnh (record : List (String × ℝ)) (schema : List String) : Option (List ℝ) :=
  selectColumns (record.filter fun kv => schema.contains kv.1) schema

/-- The compounding time-of-day multiplier of
`EnhancedTaxiFarePredictor.validate_prediction` (lines 181-188), computed by
sequential `*=` updates exactly as in the source; a flag is set when its
(float) value is nonzero, Python truthiness. -/
noncomputable def fare_multiplier (features : EnhFeatures) : ℝ :=
  open Classical in
  let multiplier : ℝ := 1.0
  let multiplier := if features.is_rush_hour ≠ 0 then multiplier * 1.2 else multiplier
  let multiplier := if features.is_night ≠ 0 then multiplier * 1.3 else multiplier
  let multiplier :=
    if features.is_weekend ≠ 0 ∧ features.is_night ≠ 0 then multiplier * 1.4 else multiplier
  multiplier

/-- Airport test of `validate_prediction` (lines 190-196): pickup strictly
closer than 2.0 miles to JFK, EWR or LGA. -/
def is_airport_trip (features : EnhFeatures) : Prop :=
  features.jfk_pickup_dist < 2.0 ∨
  features.ewr_pickup_dist < 2.0 ∨
  features.lga_pickup_dist < 2.0

/-- Per-mile rate after the airport surcharge (lines 177-198). -/
noncomputable def effective_rate (features : EnhFeatures) : ℝ :=
  open Classical in
  if is_airport_trip features then 2.50 * 1.5 else 2.50

/-- `min_expected` of `validate_prediction` (line 201): the deterministic
reference fare. -/
noncomputable def min_expected (distance : ℝ) (features : EnhFeatures) : ℝ :=
  2.50 + distance * effective_rate features * fare_multiplier features

/-- `EnhancedTaxiFarePredictor.validate_prediction` (lines 175-210);
`max_expected = min_expected * 2.5` (line 202) is inlined. -/
noncomputable def validate_prediction
    (prediction distance : ℝ) (features : EnhFeatures) : ℝ :=
  open Classical in
  if prediction < min_expected distance features * 0.5 then min_expected distance features
  else if prediction > min_expected distance features * 2.5 then
    min_expected distance features * 2.5
  else prediction

/-- The validation failures `EnhancedTaxiFarePredictor.validate_inputs` can
report (lines 45-74), one constructor per `errors.append` site. -/
inductive ValErr where
  | pickupLngOut
  | pickupLatOut
  | dropoffLngOut
  | dropoffLatOut
  | passengerCountOut
  | tooClose
deriving DecidableEq

/-- `EnhancedTaxiFarePredictor.validate_inputs` (lines 45-74): the list of
validation errors in the order the source appends them. -/
noncomputable def enh_validate_inputs
    (pickup_lng pickup_lat dropoff_lng dropoff_lat : ℚ)
    (passenger_count : ℕ) : List ValErr :=
  open Classical in
  (if ¬((-74.3 : ℚ) ≤ pickup_lng ∧ pickup_lng ≤ -73.7) then [ValErr.pickupLngOut] else [])
  ++ (if ¬((40.5 : ℚ) ≤ pickup_lat ∧ pickup_lat ≤ 40.9) then [ValErr.pickupLatOut] else [])
  ++ (if ¬((-74.3 : ℚ) ≤ dropoff_lng ∧ dropoff_lng ≤ -73.7) then [ValErr.dropoffLngOut] else [])
  ++ (if ¬((40.5 : ℚ) ≤ dropoff_lat ∧ dropoff_lat ≤ 40.9) then [ValErr.dropoffLatOut] else [])
  ++ (if ¬(1 ≤ passenger_count ∧ passenger_count ≤ 6) then [ValErr.passengerCountOut] else [])
  ++ (if enh_haversine_distance pickup_lat pickup_lng dropoff_lat dropoff_lng < 0.01
      then [ValErr.tooClose] else [])

/-- How a run of `EnhancedTaxiFarePredictor.predict_fare` can fail: the
`ValueError` raised on validation errors (line 84), or the pandas KeyError
when a schema column is missing from the features (line 147). -/
inductive EnhError where
  | validation : List ValErr → EnhError
  | schemaKeyError

/-- `EnhancedTaxiFarePredictor.predict_fare` (lines 76-173), with the scaler
and model as explicit pure collaborators.  The `clock` argument is the
ambient wall clock; the source never reads it — every temporal feature comes
from the caller-supplied `pickup_datetime`. -/
noncomputable def enh_predict_fare
    (scaler : List ℝ → List ℝ) (model : List ℝ → ℝ) (schema : List String)
    (clock : DateTime)
    (pickup_lng pickup_lat dropoff_lng dropoff_lat : ℚ)
    (pickup_datetime : DateTime) (passenger_count : ℕ) : Except EnhError ℝ :=
  let validation_errors :=
    enh_validate_inputs pickup_lng pickup_lat dropoff_lng dropoff_lat passenger_count
  if validation_errors = [] then
    let distance := enh_haversine_distance pickup_lat pickup_lng dropoff_lat dropoff_lng
    let features := enh_build_features schema pickup_lng pickup_lat dropoff_lng dropoff_lat
      pickup_datetime passenger_count
    match alignEnh (enhFeatureList features) schema with
    | none => .error .schemaKeyError
    | some row =>
      let prediction := model (scaler row)
      .ok (validate_prediction prediction distance features)
  else .error (.validation validation_errors)

/-- The response dictionary assembled by `TaxiFarePredictor.predict_fare`
(prediction.py lines 309-319). -/
structure PredictionResult where
  fare : ℝ
  confidence : ℝ
  distance_miles : ℝ
  duration_minutes : ℝ
  pickup_borough : String
  dropoff_borough : String
  features : List (String × ℝ)
  model_version : String
  prediction_timestamp : DateTime

/-- `TaxiFarePredictor._prepare_features` in full (lines 78-180): derive the
feature record, then align it to the expected schema. -/
noncomputable def app_prepare_features (clock : DateTime)
    (pickup_lon pickup_lat dropoff_lon dropoff_lat : ℚ)
    (passenger_count : ℕ) (schema : List String) : List (String × ℝ) :=
  alignApp
    (appFeatureList
      (app_feature_record clock pickup_lon pickup_lat dropoff_lon dropoff_lat passenger_count))
    schema

/-- `TaxiFarePredictor.predict_fare` (prediction.py lines 224-319), with the
scaler, model and optional ensemble sub-estimators as explicit pure
collaborators and the ambient wall clock as the `clock` argument. -/
noncomputable def app_predict_fare
    (scaler : List ℝ → List ℝ) (model : List ℝ → ℝ)
    (estimators : Option (List (List ℝ → ℝ))) (schema : List String)
    (clock : DateTime)
    (pickup_lon pickup_lat dropoff_lon dropoff_lat : ℚ)
    (passenger_count : ℕ) : PredictionResult :=
  let features_df :=
    app_prepare_features clock pickup_lon pickup_lat dropoff_lon dropoff_lat
      passenger_count schema
  let features_scaled := scaler (features_df.map Prod.snd)
  let prediction := model features_scaled
  let trip_distance := calculate_haversine_distance pickup_lat pickup_lon dropoff_lat dropoff_lon
  let estimated_duration := trip_distance / 12.0 * 60
  let pickup_borough := get_borough_name pickup_lat pickup_lon
  let dropoff_borough := get_borough_name dropoff_lat dropoff_lon
  let individual_predictions :=
    match estimators with
    | some es => (es.take 5).map fun e => e features_scaled
    | none => [prediction, prediction, prediction]
  let conf := calculate_fare_confidence prediction individual_predictions trip_distance
  let final_fare := max 2.50 prediction
  { fare := roundTo 2 final_fare
    confidence := conf.1
    distance_miles := roundTo 3 trip_distance
    duration_minutes := roundTo 1 estimated_duration
    pickup_borough := pickup_borough
    dropoff_borough := dropoff_borough
    features := schema.zip features_scaled
    model_version := "Enhanced Ensemble v1.0"
    prediction_timestamp := clock }

/-! ## Spec-side definitions

The following definitions transcribe the specification's wording (sections
4.4, 4.5 and the borough description); the theorems below relate them to the
code-derived definitions above. -/

/-- The Manhattan rectangle of `_get_borough_id` (prediction.py line 196). -/
def manhattan_box (lat lon : ℚ) : Prop :=
  -74.02 ≤ lon ∧ lon ≤ -73.93 ∧ 40.70 ≤ lat ∧ lat ≤ 40.80

/-- The Brooklyn rectangle of `_get_borough_id` (line 198). -/
def brooklyn_box (lat lon : ℚ) : Prop :=
  -74.05 ≤ lon ∧ lon ≤ -73.85 ∧ 40.63 ≤ lat ∧ lat ≤ 40.72

/-- The Queens rectangle of `_get_borough_id` (line 200). -/
def queens_box (lat lon : ℚ) : Prop :=
  -73.96 ≤ lon ∧ lon ≤ -73.75 ∧ 40.72 ≤ lat ∧ lat ≤ 40.80

/-- The Bronx rectangle of `_get_borough_id` (line 202). -/
def bronx_box (lat lon : ℚ) : Prop :=
  -73.93 ≤ lon ∧ lon ≤ -73.80 ∧ 40.80 ≤ lat ∧ lat ≤ 40.88

/-- `clamp(x, lo, hi)` as the spec words it (§4.4). -/
noncomputable def clamp (x lo hi : ℝ) : ℝ :=
  max lo (min hi x)

/-- The reference fare exactly as §4.5 of the spec words it: base fare plus
distance times the (airport-surcharged) per-mile rate times the product of
the compounding time-of-day multipliers. -/
noncomputable def spec_reference_fare (distance : ℝ) (f : EnhFeatures) : ℝ :=
  open Classical in
  2.50 + distance *
    (if is_airport_trip f then 2.50 * 1.5 else 2.50) *
    ((if f.is_rush_hour ≠ 0 then 1.2 else 1) *
     (if f.is_night ≠ 0 then 1.3 else 1) *
     (if f.is_weekend ≠ 0 ∧ f.is_night ≠ 0 then 1.4 else 1))

/-- A concrete mid-town feature bundle: all flags clear, pickup more than
two miles from every airport.  Used to instantiate the clamp theorems. -/
noncomputable def plainTripFeatures : EnhFeatures :=
  { pickup_longitude := -73.98
    pickup_latitude := 40.75
    dropoff_longitude := -73.96
    dropoff_latitude := 40.70
    passenger_count := 1
    hour := 12
    day := 15
    month := 6
    weekday := 1
    year := 2025
    distance := 1
    jfk_pickup_dist := 10
    ewr_pickup_dist := 10
    lga_pickup_dist := 10
    is_weekend := 0
    is_rush_hour := 0
    is_night := 0
    manhattan_pickup_dist := 1
    is_manhattan_pickup := 1
    is_manhattan_dropoff := 1
    log_distance := none
    log_jfk_pickup_dist := none
    log_ewr_pickup_dist := none
    log_lga_pickup_dist := none }

/-! ## Helper lemmas -/

theorem pyRound_intCast (m : ℤ) : pyRound (m : ℝ) = m := by
  unfold pyRound
  rw [Int.floor_intCast]
  norm_num

theorem le_pyRound {a : ℤ} {x : ℝ} (h : (a : ℝ) ≤ x) : a ≤ pyRound x := by
  have hf : a ≤ ⌊x⌋ := Int.le_floor.mpr h
  unfold pyRound
  split_ifs <;> omega

theorem pyRound_le {b : ℤ} {x : ℝ} (h : x ≤ (b : ℝ)) : pyRound x ≤ b := by
  have hf : ⌊x⌋ ≤ b := by
    have h1 := Int.floor_le_floor h
    simpa using h1
  have hfx : (⌊x⌋ : ℝ) ≤ x := Int.floor_le x
  unfold pyRound
  split_ifs with h1 h2 h3
  · exact hf
  · have hlt : ((⌊x⌋ : ℤ) : ℝ) < (b : ℝ) := by linarith
    have : ⌊x⌋ < b := by exact_mod_cast hlt
    omega
  · exact hf
  · have h4 : x - ⌊x⌋ = 1/2 := by linarith
    have hlt : ((⌊x⌋ : ℤ) : ℝ) < (b : ℝ) := by linarith
    have : ⌊x⌋ < b := by exact_mod_cast hlt
    omega

theorem roundTo_zero (p : ℕ) : roundTo p 0 = 0 := by
  have h0 : pyRound ((0 : ℤ) : ℝ) = 0 := pyRound_intCast 0
  unfold roundTo
  rw [zero_mul]
  rw [show ((0 : ℝ)) = ((0 : ℤ) : ℝ) by norm_num, h0]
  simp

theorem le_roundTo {p : ℕ} {a : ℤ} {x : ℝ} (h : (a : ℝ) ≤ x * 10 ^ p) :
    (a : ℝ) / 10 ^ p ≤ roundTo p x := by
  unfold roundTo
  have h1 : a ≤ pyRound (x * 10 ^ p) := le_pyRound h
  have h2 : (a : ℝ) ≤ (pyRound (x * 10 ^ p) : ℝ) := by exact_mod_cast h1
  have hp : (0 : ℝ) < 10 ^ p := by positivity
  exact (div_le_div_iff_of_pos_right hp).mpr h2

theorem roundTo_le {p : ℕ} {b : ℤ} {x : ℝ} (h : x * 10 ^ p ≤ (b : ℝ)) :
    roundTo p x ≤ (b : ℝ) / 10 ^ p := by
  unfold roundTo
  have h1 : pyRound (x * 10 ^ p) ≤ b := pyRound_le h
  have h2 : (pyRound (x * 10 ^ p) : ℝ) ≤ (b : ℝ) := by exact_mod_cast h1
  have hp : (0 : ℝ) < 10 ^ p := by positivity
  exact (div_le_div_iff_of_pos_right hp).mpr h2

/-- `round(x, p)` is the identity on exact multiples of `10 ^ (-p)`. -/
theorem roundTo_eq_self {p : ℕ} {x : ℝ} {m : ℤ} (h : x * 10 ^ p = (m : ℝ)) :
    roundTo p x = x := by
  unfold roundTo
  rw [h, pyRound_intCast]
  have hp : (10 : ℝ) ^ p ≠ 0 := by positivity
  rw [div_eq_iff hp]
  linarith

theorem haversine_core_comm (lat1 lon1 lat2 lon2 : ℝ) :
    haversine_core lat1 lon1 lat2 lon2 = haversine_core lat2 lon2 lat1 lon1 := by
  unfold haversine_core
  have hs : ∀ x y : ℝ, Real.sin ((x - y) / 2) ^ 2 = Real.sin ((y - x) / 2) ^ 2 := by
    intro x y
    rw [show (x - y) / 2 = -((y - x) / 2) by ring, Real.sin_neg]
    ring
  rw [hs lat2 lat1, hs lon2 lon1]
  ring

theorem haversine_core_self (lat lon : ℝ) : haversine_core lat lon lat lon = 0 := by
  unfold haversine_core
  simp

theorem calculate_haversine_distance_comm (a b c d : ℚ) :
    calculate_haversine_distance a b c d = calculate_haversine_distance c d a b := by
  unfold calculate_haversine_distance
  rw [haversine_core_comm]

theorem calculate_haversine_distance_self (a b : ℚ) :
    calculate_haversine_distance a b a b = 0 := by
  unfold calculate_haversine_distance
  rw [haversine_core_self]
  simp

theorem enh_haversine_distance_comm (a b c d : ℚ) :
    enh_haversine_distance a b c d = enh_haversine_distance c d a b := by
  unfold enh_haversine_distance
  rw [haversine_core_comm]

theorem enh_haversine_distance_self (a b : ℚ) :
    enh_haversine_distance a b a b = 0 := by
  unfold enh_haversine_distance
  rw [haversine_core_self]
  simp

theorem lookup_filter_none {n : String} {q : String × ℝ → Bool}
    {l : List (String × ℝ)} (h : l.lookup n = none) : (l.filter q).lookup n = none := by
  induction l with
  | nil => simp
  | cons kv t ih =>
    obtain ⟨k, v⟩ := kv
    cases hk : (n == k) with
    | true =>
      rw [List.lookup_cons, hk] at h
      exact absurd h (by simp)
    | false =>
      rw [List.lookup_cons, hk] at h
      cases hq : q (k, v) with
      | true =>
        simp only [List.filter_cons, hq, if_true]
        rw [List.lookup_cons, hk]
        exact ih h
      | false =>
        simp only [List.filter_cons, hq]
        simpa using ih h

theorem lookup_filter_of_mem {n : String} {schema : List String}
    {l : List (String × ℝ)} (hmem : n ∈ schema) :
    (l.filter fun kv => schema.contains kv.1).lookup n = l.lookup n := by
  induction l with
  | nil => simp
  | cons kv t ih =>
    obtain ⟨k, v⟩ := kv
    cases hk : (n == k) with
    | true =>
      have hkn : n = k := eq_of_beq hk
      have hc : schema.contains k = true := by
        rw [← hkn]
        exact List.elem_eq_true_of_mem hmem
      simp only [List.filter_cons, hc, if_true]
      rw [List.lookup_cons, hk, List.lookup_cons, hk]
    | false =>
      cases hq : schema.contains k with
      | true =>
        simp only [List.filter_cons, hq, if_true]
        rw [List.lookup_cons, hk, List.lookup_cons, hk]
        exact ih
      | false =>
        simp only [List.filter_cons, hq]
        rw [List.lookup_cons, hk]
        simpa using ih

theorem selectColumns_none {available : List (String × ℝ)} :
    ∀ {schema : List String} {n : String}, n ∈ schema → available.lookup n = none →
      selectColumns available schema = none := by
  intro schema
  induction schema with
  | nil => intro n h _; cases h
  | cons m ms ih =>
    intro n hmem hnone
    rcases List.mem_cons.mp hmem with rfl | hmem2
    · unfold selectColumns
      rw [hnone]
    · unfold selectColumns
      cases hm : available.lookup m with
      | none => rfl
      | some w => rw [ih hmem2 hnone]; rfl

theorem selectColumns_some {available : List (String × ℝ)} :
    ∀ {schema : List String} {v : List ℝ}, selectColumns available schema = some v →
      v.length = schema.length ∧
      ∀ i (hi : i < schema.length) (hv : i < v.length),
        available.lookup (schema.get ⟨i, hi⟩) = some (v.get ⟨i, hv⟩) := by
  intro schema
  induction schema with
  | nil =>
    intro v h
    unfold selectColumns at h
    cases h
    exact ⟨rfl, fun i hi _ => by simp at hi⟩
  | cons m ms ih =>
    intro v h
    unfold selectColumns at h
    cases hm : available.lookup m with
    | none => rw [hm] at h; cases h
    | some w =>
      rw [hm] at h
      cases hrest : selectColumns available ms with
      | none => rw [hrest] at h; cases h
      | some rest =>
        rw [hrest] at h
        simp only [Option.map_some', Option.some.injEq] at h
        subst h
        obtain ⟨hlen, hidx⟩ := ih hrest
        refine ⟨by simp [hlen], ?_⟩
        intro i hi hv
        cases i with
        | zero => simpa using hm
        | succ j =>
          have hj : j < ms.length := by simpa using hi
          have hjv : j < rest.length := by simpa using hv
          simpa using hidx j hj hjv

theorem min_expected_pos (d : ℝ) (f : EnhFeatures) (hd : 0 ≤ d) :
    0 < min_expected d f := by
  unfold min_expected effective_rate fare_multiplier
  split_ifs <;> nlinarith

theorem min_expected_plain : min_expected 1 plainTripFeatures = 5 := by
  unfold min_expected effective_rate fare_multiplier is_airport_trip plainTripFeatures
  norm_num

theorem tooClose_self_mem (plng plat : ℚ) (pc : ℕ) :
    ValErr.tooClose ∈ enh_validate_inputs plng plat plng plat pc := by
  unfold enh_validate_inputs
  have h0 : enh_haversine_distance plat plng plat plng < 0.01 := by
    rw [enh_haversine_distance_self]
    norm_num
  rw [if_pos h0]
  simp

theorem fare_floor_round (x : ℝ) : (2.5 : ℝ) ≤ roundTo 2 (max 2.50 x) := by
  have hle : (2.50 : ℝ) ≤ max 2.50 x := le_max_left _ _
  have h : ((250 : ℤ) : ℝ) ≤ (max 2.50 x) * 10 ^ 2 := by
    push_cast
    nlinarith
  have h2 := le_roundTo h
  have h3 : ((250 : ℤ) : ℝ) / 10 ^ 2 = (2.5 : ℝ) := by norm_num
  linarith [h2, h3.ge]

/-! ## Claim theorems -/

/-- C4: for every trip distance and flag combination the reference fare
equals `base_fare + distance * per_mile_rate * multiplier` where the
multiplier starts at 1 and compounds multiplicatively (×1.2 rush-hour,
×1.3 night, an additional ×1.4 when weekend and night both hold) and the
per-mile rate is raised by 50% when the pickup is within the 2-mile
threshold of any of the three airports. -/
theorem C4_reference_fare (distance : ℝ) (f : EnhFeatures) :
    min_expected distance f = spec_reference_fare distance f := by
  unfold min_expected spec_reference_fare effective_rate fare_multiplier
  split_ifs <;> ring

/-- C6 counterexample: the night flag of the legacy variant
(`enhanced_taxi_fare_predictor.py` line 126, a cited source of the claim) is
1 at hour 6, although 6 ≥ 22 ∨ 6 ≤ 5 fails — the claim's "hour=6 gives
night 0" does not hold for that variant. -/
theorem C6_counterexample : enh_is_night 6 = 1 ∧ ¬(22 ≤ 6 ∨ 6 ≤ 5) := by
  constructor
  · rfl
  · decide

/-- C6 (amended): in the live pipeline the rush-hour flag is 1 exactly on
{7,8,9,17,18,19} and the night flag exactly when hour ≥ 22 or hour ≤ 5
(hour 9 ↦ rush 1, 10 ↦ 0, 5 ↦ night 1, 6 ↦ 0); the legacy variant computes
the same rush-hour flag but sets night already for hour ≤ 6, so hour 6 gives
night 1 there. -/
theorem C6_flags (hour : ℕ) :
    (app_is_rush_hour hour = 1 ↔ hour ∈ [7, 8, 9, 17, 18, 19]) ∧
    (app_is_night hour = 1 ↔ 22 ≤ hour ∨ hour ≤ 5) ∧
    enh_is_rush_hour hour = app_is_rush_hour hour ∧
    (enh_is_night hour = 1 ↔ 22 ≤ hour ∨ hour ≤ 6) ∧
    app_is_rush_hour 9 = 1 ∧ app_is_rush_hour 10 = 0 ∧
    app_is_night 5 = 1 ∧ app_is_night 6 = 0 ∧ enh_is_night 6 = 1 := by
  have hm : (hour ∈ [7, 8, 9, 17, 18, 19]) ↔
      hour = 7 ∨ hour = 8 ∨ hour = 9 ∨ hour = 17 ∨ hour = 18 ∨ hour = 19 := by
    simp
  refine ⟨?_, ?_, ?_, ?_, by decide, by decide, by decide, by decide, by decide⟩
  · rw [hm]
    unfold app_is_rush_hour
    split_ifs with h <;> simp <;> omega
  · unfold app_is_night
    split_ifs with h <;> simp <;> omega
  · unfold enh_is_rush_hour app_is_rush_hour
    split_ifs with h1 h2
    · rfl
    · rw [hm] at h1; omega
    · rw [hm] at h1; omega
    · rfl
  · unfold enh_is_night
    split_ifs with h <;> simp <;> omega

/-- C9: on valid coordinate pairs both great-circle distance implementations
are symmetric and vanish on identical points. -/
theorem C9_haversine_symmetry (latA lonA latB lonB : ℚ)
    (hA : validate_nyc_coordinates latA lonA)
    (hB : validate_nyc_coordinates latB lonB) :
    calculate_haversine_distance latA lonA latB lonB =
      calculate_haversine_distance latB lonB latA lonA ∧
    calculate_haversine_distance latA lonA latA lonA = 0 ∧
    enh_haversine_distance latA lonA latB lonB =
      enh_haversine_distance latB lonB latA lonA ∧
    enh_haversine_distance latA lonA latA lonA = 0 :=
  ⟨calculate_haversine_distance_comm latA lonA latB lonB,
   calculate_haversine_distance_self latA lonA,
   enh_haversine_distance_comm latA lonA latB lonB,
   enh_haversine_distance_self latA lonA⟩

/-- C9 witness: the symmetry theorem applied at two concrete in-bounds
points. -/
theorem C9_witness :
    validate_nyc_coordinates 40.7 (-74.0) ∧
    validate_nyc_coordinates 40.75 (-73.98) ∧
    calculate_haversine_distance 40.7 (-74.0) 40.75 (-73.98) =
      calculate_haversine_distance 40.75 (-73.98) 40.7 (-74.0) ∧
    calculate_haversine_distance 40.7 (-74.0) 40.7 (-74.0) = 0 := by
  have h1 : validate_nyc_coordinates 40.7 (-74.0) := by
    unfold validate_nyc_coordinates
    norm_num
  have h2 : validate_nyc_coordinates 40.75 (-73.98) := by
    unfold validate_nyc_coordinates
    norm_num
  obtain ⟨s1, s2, _, _⟩ := C9_haversine_symmetry 40.7 (-74.0) 40.75 (-73.98) h1 h2
  exact ⟨h1, h2, s1, s2⟩

/-- C10: the borough classifier is total with exactly the five labels
(Staten Island as catch-all), resolves overlapping rectangles by the fixed
order Manhattan, Brooklyn, Queens, Bronx, and in particular labels the whole
Manhattan/Brooklyn overlap strip lat ∈ [40.70, 40.72], lon ∈ [-74.02, -73.93]
as Manhattan. -/
theorem C10_borough_classifier (lat lon : ℚ) :
    get_borough_name lat lon ∈
      ["Manhattan", "Brooklyn", "Queens", "Bronx", "Staten Island"] ∧
    (manhattan_box lat lon → get_borough_name lat lon = "Manhattan") ∧
    (¬manhattan_box lat lon → brooklyn_box lat lon →
      get_borough_name lat lon = "Brooklyn") ∧
    (¬manhattan_box lat lon → ¬brooklyn_box lat lon → queens_box lat lon →
      get_borough_name lat lon = "Queens") ∧
    (¬manhattan_box lat lon → ¬brooklyn_box lat lon → ¬queens_box lat lon →
      bronx_box lat lon → get_borough_name lat lon = "Bronx") ∧
    (¬manhattan_box lat lon → ¬brooklyn_box lat lon → ¬queens_box lat lon →
      ¬bronx_box lat lon → get_borough_name lat lon = "Staten Island") ∧
    (40.70 ≤ lat → lat ≤ 40.72 → -74.02 ≤ lon → lon ≤ -73.93 →
      manhattan_box lat lon ∧ brooklyn_box lat lon ∧
        get_borough_name lat lon = "Manhattan") := by
  refine ⟨?_, ?_, ?_, ?_, ?_, ?_, ?_⟩
  · unfold get_borough_name get_borough_id
    split_ifs <;> simp
  · intro h
    unfold manhattan_box at h
    unfold get_borough_name get_borough_id
    rw [if_pos h]
  · intro hm h
    unfold manhattan_box at hm
    unfold brooklyn_box at h
    unfold get_borough_name get_borough_id
    rw [if_neg hm, if_pos h]
  · intro hm hb h
    unfold manhattan_box at hm
    unfold brooklyn_box at hb
    unfold queens_box at h
    unfold get_borough_name get_borough_id
    rw [if_neg hm, if_neg hb, if_pos h]
  · intro hm hb hq h
    unfold manhattan_box at hm
    unfold brooklyn_box at hb
    unfold queens_box at hq
    unfold bronx_box at h
    unfold get_borough_name get_borough_id
    rw [if_neg hm, if_neg hb, if_neg hq, if_pos h]
  · intro hm hb hq hx
    unfold manhattan_box at hm
    unfold brooklyn_box at hb
    unfold queens_box at hq
    unfold bronx_box at hx
    unfold get_borough_name get_borough_id
    rw [if_neg hm, if_neg hb, if_neg hq, if_neg hx]
  · intro h1 h2 h3 h4
    have hman : manhattan_box lat lon := by
      unfold manhattan_box
      refine ⟨h3, h4, h1, by linarith⟩
    have hbrook : brooklyn_box lat lon := by
      unfold brooklyn_box
      refine ⟨by linarith, by linarith, by linarith, h2⟩
    refine ⟨hman, hbrook, ?_⟩
    unfold manhattan_box at hman
    unfold get_borough_name get_borough_id
    rw [if_pos hman]

/-- C10 witness: the classifier theorem applied at the concrete overlap
point (40.71, -73.95). -/
theorem C10_witness :
    manhattan_box 40.71 (-73.95) ∧ brooklyn_box 40.71 (-73.95) ∧
    get_borough_name 40.71 (-73.95) = "Manhattan" :=
  (C10_borough_classifier 40.71 (-73.95)).2.2.2.2.2.2
    (by norm_num) (by norm_num) (by norm_num) (by norm_num)

/-- C3 counterexample: with no flags set and distance 1 the reference fare is
5, the raw prediction 1 lies below the lower bound 5 × 0.5 = 2.5, yet the
validator returns the full reference fare 5, not the lower bound 2.5 the
claim promises. -/
theorem C3_counterexample :
    min_expected 1 plainTripFeatures = 5 ∧
    (1 : ℝ) < min_expected 1 plainTripFeatures * 0.5 ∧
    validate_prediction 1 1 plainTripFeatures = 5 ∧
    validate_prediction 1 1 plainTripFeatures ≠
      min_expected 1 plainTripFeatures * 0.5 := by
  have hme := min_expected_plain
  have hv : validate_prediction 1 1 plainTripFeatures = 5 := by
    unfold validate_prediction
    rw [hme]
    norm_num
  refine ⟨hme, by rw [hme]; norm_num, hv, ?_⟩
  rw [hv, hme]
  norm_num

/-- C3 (amended): for nonnegative trip distance, a raw prediction below
`reference × 0.5` is replaced by the full reference fare itself (not by the
lower bound), a prediction above `reference × 2.5` is replaced by
`reference × 2.5`, and an in-range prediction passes through unchanged
(idempotence of the clamp on in-range values). -/
theorem C3_business_clamp (p d : ℝ) (f : EnhFeatures) (hd : 0 ≤ d) :
    (p < min_expected d f * 0.5 →
      validate_prediction p d f = min_expected d f) ∧
    (min_expected d f * 2.5 < p →
      validate_prediction p d f = min_expected d f * 2.5) ∧
    (min_expected d f * 0.5 ≤ p → p ≤ min_expected d f * 2.5 →
      validate_prediction p d f = p) := by
  have hpos := min_expected_pos d f hd
  refine ⟨?_, ?_, ?_⟩
  · intro h
    unfold validate_prediction
    rw [if_pos h]
  · intro h
    unfold validate_prediction
    rw [if_neg (by linarith), if_pos (by linarith)]
  · intro h1 h2
    unfold validate_prediction
    rw [if_neg (by linarith), if_neg (by linarith)]

/-- C3 witness: the amended clamp theorem applied to the in-range prediction
6 at distance 1 with all flags clear. -/
theorem C3_witness :
    min_expected 1 plainTripFeatures * 0.5 ≤ 6 ∧
    (6 : ℝ) ≤ min_expected 1 plainTripFeatures * 2.5 ∧
    validate_prediction 6 1 plainTripFeatures = 6 := by
  have hme := min_expected_plain
  have h1 : min_expected 1 plainTripFeatures * 0.5 ≤ 6 := by rw [hme]; norm_num
  have h2 : (6 : ℝ) ≤ min_expected 1 plainTripFeatures * 2.5 := by rw [hme]; norm_num
  exact ⟨h1, h2,
    (C3_business_clamp 6 1 plainTripFeatures (by norm_num)).2.2 h1 h2⟩

/-- C1: whatever the scaler, model, ensemble, schema, clock, coordinates and
passenger count, the `fare` field returned by the live pipeline is at least
the fixed minimum fare 2.50. -/
theorem C1_fare_floor (scaler : List ℝ → List ℝ) (model : List ℝ → ℝ)
    (estimators : Option (List (List ℝ → ℝ))) (schema : List String)
    (clock : DateTime) (pickup_lon pickup_lat dropoff_lon dropoff_lat : ℚ)
    (passenger_count : ℕ) :
    (2.5 : ℝ) ≤ (app_predict_fare scaler model estimators schema clock
      pickup_lon pickup_lat dropoff_lon dropoff_lat passenger_count).fare := by
  exact fare_floor_round _

/-- C7 counterexample: with pickup and dropoff exactly identical the live
pipeline raises nothing and returns a `PredictionResult` whose
`distance_miles` field is 0 — no degenerate-trip error exists on this path. -/
theorem C7_counterexample :
    (app_predict_fare (fun v => v) (fun _ => 10) none []
      ⟨12, 15, 6, 1, 2025⟩ (-73.98) 40.75 (-73.98) 40.75 1).distance_miles = 0 := by
  show roundTo 3 (calculate_haversine_distance 40.75 (-73.98) 40.75 (-73.98)) = 0
  rw [calculate_haversine_distance_self, roundTo_zero]

/-- C7 (amended): the legacy variant's `validate_inputs` does reject
identical pickup/dropoff points (its error list contains the too-close error
and `predict_fare` fails), but the live pipeline performs no such check and
returns a `PredictionResult` with distance 0 for every identical pair. -/
theorem C7_degenerate_trip :
    (∀ (plng plat : ℚ) (pc : ℕ),
      ValErr.tooClose ∈ enh_validate_inputs plng plat plng plat pc) ∧
    (∀ (scaler : List ℝ → List ℝ) (model : List ℝ → ℝ) (schema : List String)
      (clock : DateTime) (plng plat : ℚ) (dt : DateTime) (pc : ℕ),
      ∃ e, enh_predict_fare scaler model schema clock plng plat plng plat dt pc =
        Except.error e) ∧
    (∀ (scaler : List ℝ → List ℝ) (model : List ℝ → ℝ)
      (estimators : Option (List (List ℝ → ℝ))) (schema : List String)
      (clock : DateTime) (plon plat : ℚ) (pc : ℕ),
      (app_predict_fare scaler model estimators schema clock
        plon plat plon plat pc).distance_miles = 0) := by
  refine ⟨fun plng plat pc => tooClose_self_mem plng plat pc, ?_, ?_⟩
  · intro scaler model schema clock plng plat dt pc
    have hne : enh_validate_inputs plng plat plng plat pc ≠ [] :=
      List.ne_nil_of_mem (tooClose_self_mem plng plat pc)
    unfold enh_predict_fare
    rw [if_neg hne]
    exact ⟨_, rfl⟩
  · intro scaler model estimators schema clock plon plat pc
    show roundTo 3 (calculate_haversine_distance plat plon plat plon) = 0
    rw [calculate_haversine_distance_self, roundTo_zero]

/-- C8: with an explicitly supplied trip timestamp the legacy prediction
operation is a pure function of its arguments — its result is invariant
under any change of the ambient wall clock — while the live pipeline's
feature derivation, which has no timestamp parameter, genuinely depends on
the wall clock. -/
theorem C8_timestamp_determinism :
    (∀ (scaler : List ℝ → List ℝ) (model : List ℝ → ℝ) (schema : List String)
      (clock1 clock2 : DateTime) (plng plat dlng dlat : ℚ)
      (dt : DateTime) (pc : ℕ),
      enh_predict_fare scaler model schema clock1 plng plat dlng dlat dt pc =
        enh_predict_fare scaler model schema clock2 plng plat dlng dlat dt pc) ∧
    (∃ clock1 clock2 : DateTime,
      app_feature_record clock1 (-73.98) 40.75 (-73.96) 40.70 1 ≠
        app_feature_record clock2 (-73.98) 40.75 (-73.96) 40.70 1) := by
  constructor
  · intro scaler model schema clock1 clock2 plng plat dlng dlat dt pc
    rfl
  · refine ⟨⟨0, 1, 1, 1, 2025⟩, ⟨12, 1, 1, 1, 2025⟩, ?_⟩
    intro h
    have h2 := congrArg TripFeatures.hour h
    simp only [app_feature_record] at h2
    norm_num at h2

/-- C2 counterexample: the live pipeline's schema alignment
(prediction.py line 167), a cited source of the claim, silently drops a
schema name with no matching feature instead of failing — the output has one
column fewer than the schema and no error is raised. -/
theorem C2_counterexample :
    alignApp [("distance", (3 : ℝ))] ["distance", "bogus"] =
      [("distance", (3 : ℝ))] ∧
    (alignApp [("distance", (3 : ℝ))] ["distance", "bogus"]).length ≠
      (["distance", "bogus"] : List String).length := by
  constructor
  · rfl
  · decide

/-- C2 (amended): the legacy variant's column selection does fail (pandas
KeyError) whenever a schema name has no feature entry, and on success yields
exactly one value per schema name in schema order; the live pipeline's
alignment, by contrast, silently drops missing schema names (see the
counterexample). -/
theorem C2_schema_alignment (record : List (String × ℝ)) (schema : List String) :
    (∀ n ∈ schema, record.lookup n = none → alignEnh record schema = none) ∧
    (∀ v, alignEnh record schema = some v →
      v.length = schema.length ∧
      ∀ i (hi : i < schema.length) (hv : i < v.length),
        record.lookup (schema.get ⟨i, hi⟩) = some (v.get ⟨i, hv⟩)) := by
  constructor
  · intro n hn hnone
    unfold alignEnh
    exact selectColumns_none hn (lookup_filter_none hnone)
  · intro v hv
    unfold alignEnh at hv
    obtain ⟨hlen, hidx⟩ := selectColumns_some hv
    refine ⟨hlen, ?_⟩
    intro i hi hiv
    have hmem : schema.get ⟨i, hi⟩ ∈ schema := List.get_mem schema i hi
    have h := hidx i hi hiv
    rwa [lookup_filter_of_mem hmem] at h

/-- C2 witness: the amended alignment theorem applied to a record lacking
the schema name "b" — alignment fails. -/
theorem C2_witness : alignEnh [("a", (1 : ℝ))] ["b"] = none :=
  (C2_schema_alignment [("a", (1 : ℝ))] ["b"]).1 "b" (by simp) rfl

/-- C5: the confidence estimator returns the fixed default 0.7 with a
±20% range (floored at the minimum fare) when fewer than two secondary
predictions exist; otherwise it returns
`clamp(1 − 2·(stddev/mean), 0.1, 0.95)` (relative spread treated as 1 when
the mean is not positive) rounded to 3 decimals with a ±1.5·stddev range
rounded to 2 decimals; in every case the confidence lies in [0, 1]. -/
theorem C5_confidence (p : ℝ) (preds : List ℝ) (d : ℝ) :
    (preds.length < 2 →
      calculate_fare_confidence p preds d =
        (0.7, ⟨max 2.50 (p - 0.2 * p), p + 0.2 * p⟩)) ∧
    (2 ≤ preds.length →
      calculate_fare_confidence p preds d =
        (roundTo 3 (clamp
            (1 - 2 * (if 0 < listMean preds then sampleStdev preds / listMean preds else 1))
            0.1 0.95),
         ⟨roundTo 2 (max 2.50 (p - 1.5 * sampleStdev preds)),
          roundTo 2 (p + 1.5 * sampleStdev preds)⟩)) ∧
    0 ≤ (calculate_fare_confidence p preds d).1 ∧
    (calculate_fare_confidence p preds d).1 ≤ 1 := by
  have hb1 : preds.length < 2 →
      calculate_fare_confidence p preds d =
        (0.7, ⟨max 2.50 (p - 0.2 * p), p + 0.2 * p⟩) := by
    intro h
    simp only [calculate_fare_confidence]
    rw [if_pos h, mul_comm p 0.2]
  have hb2 : 2 ≤ preds.length →
      calculate_fare_confidence p preds d =
        (roundTo 3 (clamp
            (1 - 2 * (if 0 < listMean preds then sampleStdev preds / listMean preds else 1))
            0.1 0.95),
         ⟨roundTo 2 (max 2.50 (p - 1.5 * sampleStdev preds)),
          roundTo 2 (p + 1.5 * sampleStdev preds)⟩) := by
    intro h
    simp only [calculate_fare_confidence]
    rw [if_neg (by omega : ¬preds.length < 2)]
    have e1 : (1.0 : ℝ) -
        (if 0 < listMean preds then sampleStdev preds / listMean preds else 1.0) * 2 =
        1 - 2 * (if 0 < listMean preds then sampleStdev preds / listMean preds else 1) := by
      ring_nf
    have e2 : sampleStdev preds * 1.5 = 1.5 * sampleStdev preds := mul_comm _ _
    rw [e1, e2]
    rfl
  have hclamp_lo : (0.1 : ℝ) ≤ clamp
      (1 - 2 * (if 0 < listMean preds then sampleStdev preds / listMean preds else 1))
      0.1 0.95 := le_max_left _ _
  have hclamp_hi : clamp
      (1 - 2 * (if 0 < listMean preds then sampleStdev preds / listMean preds else 1))
      0.1 0.95 ≤ 0.95 := max_le (by norm_num) (min_le_left _ _)
  refine ⟨hb1, hb2, ?_, ?_⟩
  · rcases Nat.lt_or_ge preds.length 2 with h | h
    · rw [hb1 h]
      norm_num
    · rw [hb2 h]
      have h0 : ((0 : ℤ) : ℝ) ≤ (clamp
          (1 - 2 * (if 0 < listMean preds then sampleStdev preds / listMean preds else 1))
          0.1 0.95) * 10 ^ 3 := by
        push_cast
        nlinarith [hclamp_lo]
      have hr := le_roundTo h0
      have hb0 : ((0 : ℤ) : ℝ) / 10 ^ 3 = (0 : ℝ) := by norm_num
      rw [hb0] at hr
      exact hr
  · rcases Nat.lt_or_ge preds.length 2 with h | h
    · rw [hb1 h]
      norm_num
    · rw [hb2 h]
      have h1 : (clamp
          (1 - 2 * (if 0 < listMean preds then sampleStdev preds / listMean preds else 1))
          0.1 0.95) * 10 ^ 3 ≤ ((1000 : ℤ) : ℝ) := by
        push_cast
        nlinarith [hclamp_hi]
      have hr := roundTo_le h1
      have hb1000 : ((1000 : ℤ) : ℝ) / 10 ^ 3 = (1 : ℝ) := by norm_num
      rw [hb1000] at hr
      exact hr

/-- C5 witness: the confidence theorem evaluated at primary prediction 10
with secondary predictions [2, 4, 6] (mean 4, sample stddev 2): confidence
0.1, range [7, 13]. -/
theorem C5_witness :
    2 ≤ ([(2 : ℝ), 4, 6]).length ∧
    calculate_fare_confidence 10 [(2 : ℝ), 4, 6] 1 = (0.1, ⟨7, 13⟩) := by
  have hlen : 2 ≤ ([(2 : ℝ), 4, 6]).length := by simp
  have hmean : listMean [(2 : ℝ), 4, 6] = 4 := by
    unfold listMean
    norm_num
  have hvar : sampleVariance [(2 : ℝ), 4, 6] = 4 := by
    unfold sampleVariance
    simp only [hmean]
    norm_num
  have hstd : sampleStdev [(2 : ℝ), 4, 6] = 2 := by
    unfold sampleStdev
    rw [hvar, show (4 : ℝ) = 2 ^ 2 by norm_num,
      Real.sqrt_sq (by norm_num : (0 : ℝ) ≤ 2)]
  refine ⟨hlen, ?_⟩
  obtain ⟨_, h2, _, _⟩ := C5_confidence 10 [(2 : ℝ), 4, 6] 1
  rw [h2 hlen]
  simp only [hmean, hstd]
  rw [if_pos (by norm_num : (0 : ℝ) < 4)]
  have hc : clamp (1 - 2 * ((2 : ℝ) / 4)) 0.1 0.95 = 0.1 := by
    unfold clamp
    rw [show (1 : ℝ) - 2 * (2 / 4) = 0 by norm_num,
      min_eq_right (by norm_num : (0 : ℝ) ≤ 0.95),
      max_eq_left (by norm_num : (0 : ℝ) ≤ 0.1)]
  rw [hc]
  have hlo : max (2.50 : ℝ) (10 - 1.5 * 2) = 7 := by
    rw [max_eq_right] <;> norm_num
  have hhi : (10 : ℝ) + 1.5 * 2 = 13 := by norm_num
  rw [hlo, hhi]
  rw [@roundTo_eq_self 3 0.1 100 (by norm_num),
    @roundTo_eq_self 2 7 700 (by norm_num),
    @roundTo_eq_self 2 13 1300 (by norm_num)]
